import Mathlib

/-!
Shallow embedding of `src/create-pull-request.py`, a one-shot script that
publishes local working-tree changes as a pull request.  Pure Python helpers
become Lean functions; the script's effectful git / GitHub calls are recorded
as an explicit trace of `Action`s, and the module-level control flow (lines
166-216 of the source) becomes the function `run`, which maps the ambient
environment and a snapshot of repository state to an outcome and a trace.
-/

namespace CreatePullRequest

/-- The fields of the GitHub event payload that the script reads
(`event_data["deleted"]`, `event_data["ref"]`, and the head-commit author
used only by `get_head_author`). -/
structure EventData where
  deleted : Bool
  ref : String
  authorEmail : String
  authorName : String
  deriving DecidableEq, Repr

/-- The environment variables the script consults.  Required variables
(`os.environ[...]`) are plain strings; optional ones (`os.environ.get` /
`os.getenv`) are `Option String`, with `none` standing for an unset
variable. -/
structure Env where
  GITHUB_EVENT_NAME : String
  SKIP_IGNORE : Option String
  PULL_REQUEST_BRANCH : Option String
  GITHUB_REF : String
  BRANCH_SUFFIX : Option String
  GITHUB_ACTOR : String
  GITHUB_TOKEN : String
  GITHUB_REPOSITORY : String
  COMMIT_MESSAGE : Option String
  PULL_REQUEST_TITLE : Option String
  PULL_REQUEST_BODY : Option String
  PULL_REQUEST_LABELS : Option String
  PULL_REQUEST_ASSIGNEES : Option String
  PULL_REQUEST_MILESTONE : Option String
  PULL_REQUEST_REVIEWERS : Option String
  PULL_REQUEST_TEAM_REVIEWERS : Option String
  deriving DecidableEq, Repr

/-- Snapshot of the local repository state that the script queries:
the abbreviated HEAD hash (`git rev-parse --short HEAD`), the names of the
known remote references (`repo.remotes.origin.refs`), dirtiness and
untracked files, the wall-clock timestamp (`int(time.time())`), a stream of
random draws feeding `random.choice`, and whether `git stash pop` raises. -/
structure RepoState where
  shortSha : String
  remoteRefNames : List String
  is_dirty : Bool
  untracked_files : List String
  timestamp : Nat
  randChoices : Nat → Nat
  popFails : Bool

/-- Python truthiness of `os.environ.get(...)`: `bool(None)` and `bool("")`
are `False`, every non-empty string (including `"false"` and `"0"`) is
`True`.  Embeds line 170's `bool(os.environ.get('SKIP_IGNORE'))`. -/
def pyTruthy : Option String → Bool
  | none => false
  | some s => !(s == "")

/-- Python's `s.startswith(pre)`: the characters of `pre` are a prefix of
the characters of `s`. -/
def py_startswith (s pre : String) : Bool := pre.toList.isPrefixOf s.toList

/-- Python's `s[n:]` slice: drop the first `n` characters. -/
def py_slice_from (s : String) (n : Nat) : String := String.mk (s.toList.drop n)

/-- Embeds `ignore_event` (source lines 22-37): a push event is ignored when
its `deleted` field formats to `"True"` or its `ref` is outside the
`refs/heads/` namespace; every non-push event is processed. -/
def ignore_event (event_name : String) (event_data : EventData) : Bool :=
  if event_name == "push" then
    if event_data.deleted then true
    else if !(py_startswith event_data.ref "refs/heads/") then true
    else false
  else false

/-- `string.ascii_lowercase + string.digits`, the default character set of
`get_random_suffix`. -/
def suffix_chars : List Char := "abcdefghijklmnopqrstuvwxyz0123456789".toList

/-- Embeds `get_random_suffix` (source lines 44-45): `size` draws of
`random.choice(chars)` joined into a string.  Randomness is an explicit
stream `r`; draw `i` picks `chars[r i % chars.length]`. -/
def get_random_suffix (r : Nat → Nat) (size : Nat) (chars : List Char) : String :=
  String.mk ((List.range size).map (fun i => chars.getD (r i % chars.length) 'a'))

/-- Embeds `remote_branch_exists` (source lines 48-52): scan the remote
reference names and report whether one equals `"origin/" + branch`
exactly.  Pure: it only reads the reference list. -/
def remote_branch_exists (refNames : List String) (branch : String) : Bool :=
  refNames.any (fun name => name == "origin/" ++ branch)

/-- Embeds `get_head_author` (source lines 55-62).  Defined by the script
but never called by it. -/
def get_head_author (event_name : String) (event_data : EventData)
    (github_actor : String) : String × String :=
  if event_name == "push" then (event_data.authorEmail, event_data.authorName)
  else (github_actor ++ "@users.noreply.github.com", github_actor)

/-- Embeds `cs_string_to_list` (source lines 93-97): split on commas, strip
whitespace, drop empty entries. -/
def cs_string_to_list (s : String) : List String :=
  ((s.splitOn ",").map String.trim).filter (fun i => !(i == ""))

/-- One observable git / GitHub side effect of the script, in the order the
script would perform it. -/
inductive Action where
  | gitConfig (key value : String)
  | setRemoteUrl (token repository : String)
  | stash
  | checkout (branch : String)
  | checkoutNew (branch : String)
  | stashPop
  | checkoutTheirs
  | resetIndex
  | addAll
  | commit (message : String)
  | forcePush (branch : String)
  | createPullRequest (title body base head : String)
  | setEnvPullRequestNumber
  | setLabels (labels : List String)
  | setAssignees (assignees : List String)
  | setMilestone (milestone : String)
  | requestReviewers (reviewers : List String)
  | requestTeamReviewers (team_reviewers : List String)
  deriving DecidableEq, Repr

/-- How a run of the script terminates (all of these exit with status 0). -/
inductive Outcome where
  | ignored
  | skippedSelfRef
  | skippedBranchExists
  | skippedClean
  | updatedExistingBranch
  | createdPullRequest
  deriving DecidableEq, Repr

/-- Embeds `set_git_config` (source lines 65-67): two `git config --global`
calls whose values are quoted with `'"%s"'`. -/
def set_git_config (email name : String) : List Action :=
  [Action.gitConfig "user.email" ("\"" ++ email ++ "\""),
   Action.gitConfig "user.name" ("\"" ++ name ++ "\"")]

/-- Embeds `checkout_branch` (source lines 74-84) as the trace of git calls
it performs.  `popFails` tells whether `git stash pop` raises; when it does,
the `except` arm runs `git checkout --theirs .` and `git reset` and the
function returns normally. -/
def checkout_branch (remote_exists : Bool) (branch : String) (popFails : Bool) :
    List Action :=
  if remote_exists then
    [Action.stash, Action.checkout branch] ++
      (if popFails then [Action.stashPop, Action.checkoutTheirs, Action.resetIndex]
       else [Action.stashPop])
  else
    [Action.checkoutNew branch]

/-- Default commit message (source lines 105-107). -/
def default_commit_message : String :=
  "Auto-committed changes by create-pull-request action"

/-- Default pull-request title (source lines 108-110). -/
def default_title : String := "Auto-generated by create-pull-request action"

/-- Default pull-request body (source lines 111-113). -/
def default_body : String :=
  "Auto-generated pull request by [create-pull-request](https://github.com/peter-evans/create-pull-request) GitHub Action"

/-- The singleton action emitted for an optional metadata variable: present
configuration values yield one application step, absent ones none. -/
def optAction (value : Option String) (mk : String → Action) : List Action :=
  match value with
  | some s => [mk s]
  | none => []

/-- Embeds `process_event` (source lines 100-163): update the origin URL,
stage/commit/force-push, then either stop (remote branch pre-existed) or
create the pull request and apply each configured metadata field in source
order (labels, assignees, milestone, reviewers, team reviewers). -/
def process_event (env : Env) (branch base : String) (remote_exists : Bool) :
    Outcome × List Action :=
  let commit_message := env.COMMIT_MESSAGE.getD default_commit_message
  let title := env.PULL_REQUEST_TITLE.getD default_title
  let body := env.PULL_REQUEST_BODY.getD default_body
  let pushed := [Action.setRemoteUrl env.GITHUB_TOKEN env.GITHUB_REPOSITORY,
                 Action.addAll, Action.commit commit_message, Action.forcePush branch]
  if remote_exists then
    (Outcome.updatedExistingBranch, pushed)
  else
    (Outcome.createdPullRequest,
      pushed ++
      [Action.createPullRequest title body base branch,
       Action.setEnvPullRequestNumber] ++
      optAction env.PULL_REQUEST_LABELS
        (fun s => Action.setLabels (cs_string_to_list s)) ++
      optAction env.PULL_REQUEST_ASSIGNEES
        (fun s => Action.setAssignees (cs_string_to_list s)) ++
      optAction env.PULL_REQUEST_MILESTONE
        (fun s => Action.setMilestone s) ++
      optAction env.PULL_REQUEST_REVIEWERS
        (fun s => Action.requestReviewers (cs_string_to_list s)) ++
      optAction env.PULL_REQUEST_TEAM_REVIEWERS
        (fun s => Action.requestTeamReviewers (cs_string_to_list s)))

/-- The configured base branch name (source line 176):
`os.getenv('PULL_REQUEST_BRANCH', 'create-pull-request/patch')`. -/
def base_branch (env : Env) : String :=
  env.PULL_REQUEST_BRANCH.getD "create-pull-request/patch"

/-- The target base branch (source line 178): `GITHUB_REF[11:]`, the
currently checked-out branch name. -/
def target_base (env : Env) : String := py_slice_from env.GITHUB_REF 11

/-- The branch suffix strategy (source line 186):
`os.getenv('BRANCH_SUFFIX', 'short-commit-hash')`. -/
def branch_suffix (env : Env) : String :=
  env.BRANCH_SUFFIX.getD "short-commit-hash"

/-- Embeds the suffixing chain of source lines 187-195: append the short
HEAD hash, the timestamp, or a random suffix; any other strategy leaves the
name unchanged. -/
def resolve_branch (branch suffix sha : String) (timestamp : Nat)
    (rand : String) : String :=
  if suffix == "short-commit-hash" then branch ++ "-" ++ sha
  else if suffix == "timestamp" then branch ++ "-" ++ toString timestamp
  else if suffix == "random" then branch ++ "-" ++ rand
  else branch

/-- The branch name the run resolves to, from the configured base name, the
suffix strategy and the repository snapshot. -/
def resolved_branch (env : Env) (repo : RepoState) : String :=
  resolve_branch (base_branch env) (branch_suffix env) repo.shortSha
    repo.timestamp (get_random_suffix repo.randChoices 7 suffix_chars)

/-- Embeds the module-level control flow (source lines 166-216):
classifier gate (with the `SKIP_IGNORE` bypass), self-reference guard,
branch-name resolution, remote-existence check, the short-commit-hash
idempotency exit, git identity configuration, branch checkout, and the
dirty-tree gate in front of `process_event`. -/
def run (env : Env) (event_data : EventData) (repo : RepoState) :
    Outcome × List Action :=
  let skip_ignore_event := pyTruthy env.SKIP_IGNORE
  if skip_ignore_event || !(ignore_event env.GITHUB_EVENT_NAME event_data) then
    let branch := base_branch env
    let base := target_base env
    if py_startswith base branch then
      (Outcome.skippedSelfRef, [])
    else
      let suffix := branch_suffix env
      let branch := resolved_branch env repo
      let remote_exists := remote_branch_exists repo.remoteRefNames branch
      if suffix == "short-commit-hash" && remote_exists then
        (Outcome.skippedBranchExists, [])
      else
        let configActs := set_git_config "openosrs.github@gmail.com" "OpenOSRS"
        let checkoutActs := checkout_branch remote_exists branch repo.popFails
        if repo.is_dirty || decide (repo.untracked_files.length > 0) then
          let step := process_event env branch base remote_exists
          (step.1, configActs ++ checkoutActs ++ step.2)
        else
          (Outcome.skippedClean, configActs ++ checkoutActs)
  else
    (Outcome.ignored, [])

/-- A snapshot of file contents, as an association of paths to contents
(absent path = file does not exist in the snapshot). -/
abbrev Tree := List (String × String)

/-- Content of path `p` in a tree. -/
def Tree.get (t : Tree) (p : String) : Option String :=
  (t.find? (fun e => e.1 == p)).map (fun e => e.2)

/-- The paths a tree mentions. -/
def Tree.paths (t : Tree) : List String := t.map (fun e => e.1)

/-- Modelled from the spec: re-applying the stashed change at path `p` onto
the checked-out branch conflicts when the path was changed locally
(`stashed ≠ head`), the branch also changed it (`tip ≠ head`), and the two
changes disagree (`tip ≠ stashed`).  The spec (section 4.4) treats
`stashPop` as failing with a conflict exactly when such a path exists. -/
def pop_conflict (head tip stashed : Tree) (p : String) : Bool :=
  !(stashed.get p == head.get p) && !(tip.get p == head.get p) &&
    !(tip.get p == stashed.get p)

/-- The conflicting paths among those any of the three snapshots mentions
(a path absent everywhere cannot conflict). -/
def conflict_paths (head tip stashed : Tree) : List String :=
  (head.paths ++ tip.paths ++ stashed.paths).filter
    (fun p => pop_conflict head tip stashed p)

/-- The two reconciliation outcomes of the spec's Workspace Reconciler. -/
inductive ReconcileOutcome where
  | ok
  | conflictResolved
  deriving DecidableEq, Repr

/-- Result of reconciling the working tree onto the target branch: the
outcome and the final working-tree content at each path. -/
structure ReconcileResult where
  outcome : ReconcileOutcome
  content : String → Option String

/-- Embeds the control flow of `checkout_branch` (source lines 74-84) over
per-path file contents.  Modelled from the spec: the git commands are the
external VersionControl capability, given these per-path semantics by the
spec (sections 4.4 and 6) — `stash --include-untracked` saves the working
tree (`working`) and restores `head`; `checkout` installs the remote
branch's snapshot `tip`; `stash pop` re-applies each locally changed path,
raising iff some path conflicts; on that failure `checkout --theirs .`
forcibly takes the checked-out branch's version for every conflicting path
and `reset` unstages without touching file contents. -/
def checkout_branch_state (remote_exists : Bool) (head tip working : Tree) :
    ReconcileResult :=
  if remote_exists then
    if conflict_paths head tip working = [] then
      { outcome := ReconcileOutcome.ok,
        content := fun p =>
          if working.get p == head.get p then tip.get p else working.get p }
    else
      { outcome := ReconcileOutcome.conflictResolved,
        content := fun p =>
          if pop_conflict head tip working p then tip.get p
          else if working.get p == head.get p then tip.get p
          else working.get p }
  else
    { outcome := ReconcileOutcome.ok, content := fun p => working.get p }

/-! ## Theorems -/

/-- C3: the event classifier returns true for a push event with
`deleted = true`; returns true for a push event whose `ref` is outside
`refs/heads/`; returns false for a push event on `refs/heads/main` with
`deleted = false`; and returns false for every non-push event. -/
theorem C3_event_classifier :
    (∀ event_data : EventData, event_data.deleted = true →
      ignore_event "push" event_data = true) ∧
    (∀ event_data : EventData, py_startswith event_data.ref "refs/heads/" = false →
      ignore_event "push" event_data = true) ∧
    (∀ event_data : EventData, event_data.deleted = false →
      event_data.ref = "refs/heads/main" →
      ignore_event "push" event_data = false) ∧
    (∀ (event_name : String) (event_data : EventData), event_name ≠ "push" →
      ignore_event event_name event_data = false) := by
  refine ⟨?_, ?_, ?_, ?_⟩
  · intro ed h
    simp [ignore_event, h]
  · intro ed h
    simp [ignore_event, h]
  · intro ed h hr
    simp [ignore_event, h, hr]
    decide
  · intro name ed h
    simp [ignore_event, h]

/-- C3 witness: the classifier evaluated on the four concrete events of the
claim. -/
theorem C3_event_classifier_witness :
    ignore_event "push" ⟨true, "refs/heads/main", "e", "n"⟩ = true ∧
    ignore_event "push" ⟨false, "refs/tags/v1.0", "e", "n"⟩ = true ∧
    ignore_event "push" ⟨false, "refs/heads/main", "e", "n"⟩ = false ∧
    ignore_event "workflow_dispatch" ⟨false, "refs/tags/v1.0", "e", "n"⟩ = false :=
  ⟨C3_event_classifier.1 ⟨true, "refs/heads/main", "e", "n"⟩ rfl,
   C3_event_classifier.2.1 ⟨false, "refs/tags/v1.0", "e", "n"⟩ (by decide),
   C3_event_classifier.2.2.1 ⟨false, "refs/heads/main", "e", "n"⟩ rfl rfl,
   C3_event_classifier.2.2.2 "workflow_dispatch" ⟨false, "refs/tags/v1.0", "e", "n"⟩
     (by decide)⟩

/-- C6: `remote_branch_exists` returns true exactly when some remote
reference name equals the string `"origin/" ++ branch` — exact equality, no
partial matching.  The check is a pure function of the reference-name list,
so it mutates no repository state. -/
theorem C6_remote_branch_exists_iff :
    ∀ (refNames : List String) (branch : String),
      remote_branch_exists refNames branch = true ↔
        ∃ name ∈ refNames, name = "origin/" ++ branch := by
  intro refNames branch
  simp [remote_branch_exists, List.any_eq_true]

/-- Every character produced by `get_random_suffix` is drawn from `chars`. -/
theorem get_random_suffix_chars_mem (r : Nat → Nat) (size : Nat)
    (chars : List Char) (hne : chars ≠ []) :
    ∀ c ∈ (get_random_suffix r size chars).toList, c ∈ chars := by
  intro c hc
  simp only [get_random_suffix, String.toList, List.mem_map] at hc
  obtain ⟨i, -, hi⟩ := hc
  have hlen : 0 < chars.length := List.length_pos.mpr hne
  have hmod : r i % chars.length < chars.length := Nat.mod_lt _ hlen
  rw [List.getD_eq_getElem _ _ hmod] at hi
  exact hi ▸ List.getElem_mem hmod

/-- C5: under `short-commit-hash` the resolved branch name is the base name,
a dash, and the abbreviated HEAD hash — so two runs on the same HEAD commit
resolve to the identical name regardless of the rest of the repository
snapshot, and a 7-character hash yields a 7-character suffix; under `random`
the resolved name is the base name, a dash, and a 7-character suffix each
character of which is drawn from the 36-character lowercase-alphanumeric
set. -/
theorem C5_branch_name_resolution :
    (∀ env repo, branch_suffix env = "short-commit-hash" →
      resolved_branch env repo = base_branch env ++ "-" ++ repo.shortSha) ∧
    (∀ env repo repo', branch_suffix env = "short-commit-hash" →
      repo.shortSha = repo'.shortSha →
      resolved_branch env repo = resolved_branch env repo') ∧
    (∀ env repo, branch_suffix env = "short-commit-hash" →
      repo.shortSha.toList.length = 7 →
      (resolved_branch env repo).toList =
        (base_branch env).toList ++ "-".toList ++ repo.shortSha.toList) ∧
    (∀ env repo, branch_suffix env = "random" →
      resolved_branch env repo =
        base_branch env ++ "-" ++ get_random_suffix repo.randChoices 7 suffix_chars) ∧
    (∀ r, (get_random_suffix r 7 suffix_chars).toList.length = 7) ∧
    (∀ r c, c ∈ (get_random_suffix r 7 suffix_chars).toList → c ∈ suffix_chars) ∧
    suffix_chars.length = 36 := by
  have hshort : ∀ env repo, branch_suffix env = "short-commit-hash" →
      resolved_branch env repo = base_branch env ++ "-" ++ repo.shortSha := by
    intro env repo h
    simp [resolved_branch, resolve_branch, h]
  refine ⟨hshort, ?_, ?_, ?_, ?_, ?_, by decide⟩
  · intro env repo repo' h hsha
    rw [hshort env repo h, hshort env repo' h, hsha]
  · intro env repo h _
    rw [hshort env repo h]
    simp [String.toList]
  · intro env repo h
    have h' : ¬(branch_suffix env = "short-commit-hash") := by
      rw [h]; decide
    have h'' : ¬(branch_suffix env = "timestamp") := by
      rw [h]; decide
    simp [resolved_branch, resolve_branch, h, h', h'']
  · intro r
    simp [get_random_suffix, String.toList]
  · intro r c hc
    exact get_random_suffix_chars_mem r 7 suffix_chars (by decide) c hc

/-- C5 witness: resolution evaluated at concrete inputs — a
short-commit-hash run on hash `abc1234` yields `patch-abc1234`, and a
concrete random suffix has length 7 with characters in the charset. -/
theorem C5_branch_name_resolution_witness :
    branch_suffix (Env.mk "push" none (some "patch") "refs/heads/master" none
        "a" "t" "o/r" none none none none none none none none) =
      "short-commit-hash" ∧
    resolved_branch
        (Env.mk "push" none (some "patch") "refs/heads/master" none
          "a" "t" "o/r" none none none none none none none none)
        (RepoState.mk "abc1234" [] true [] 0 (fun _ => 3) false) =
      "patch-abc1234" ∧
    (get_random_suffix (fun _ => 3) 7 suffix_chars).toList.length = 7 ∧
    ∀ c ∈ (get_random_suffix (fun _ => 3) 7 suffix_chars).toList,
      c ∈ suffix_chars := by
  refine ⟨rfl, ?_, C5_branch_name_resolution.2.2.2.2.1 (fun _ => 3),
    fun c hc => C5_branch_name_resolution.2.2.2.2.2.1 (fun _ => 3) c hc⟩
  rw [C5_branch_name_resolution.1
    (Env.mk "push" none (some "patch") "refs/heads/master" none
      "a" "t" "o/r" none none none none none none none none)
    (RepoState.mk "abc1234" [] true [] 0 (fun _ => 3) false) rfl]
  rfl

/-- C1: when the remote branch exists and the stash-pop step fails with a
conflict, reconciliation returns outcome `conflictResolved` (the run
continues rather than failing), and the final working-tree content of every
conflicting path is the checked-out remote branch's version of that path,
not the locally stashed version. -/
theorem C1_conflict_fallback :
    ∀ head tip working : Tree,
      conflict_paths head tip working ≠ [] →
      (checkout_branch_state true head tip working).outcome =
        ReconcileOutcome.conflictResolved ∧
      ∀ p, pop_conflict head tip working p = true →
        (checkout_branch_state true head tip working).content p = tip.get p ∧
        (checkout_branch_state true head tip working).content p ≠
          working.get p := by
  intro head tip working hconf
  constructor
  · simp [checkout_branch_state, hconf]
  · intro p hp
    have hne : tip.get p ≠ working.get p := by
      simp only [pop_conflict, Bool.and_eq_true, Bool.not_eq_true',
        beq_eq_false_iff_ne, ne_eq] at hp
      exact hp.2
    constructor
    · simp [checkout_branch_state, hconf, hp]
    · simp [checkout_branch_state, hconf, hp]
      exact hne

/-- C1 witness: a one-file repository where the stashed local change to
`x.txt` conflicts with the remote branch's change; the fallback resolves
the conflict and leaves the remote branch's content in the working tree. -/
theorem C1_conflict_fallback_witness :
    conflict_paths [("x.txt", "base")] [("x.txt", "remote")] [("x.txt", "local")] ≠ [] ∧
    (checkout_branch_state true [("x.txt", "base")] [("x.txt", "remote")]
        [("x.txt", "local")]).outcome = ReconcileOutcome.conflictResolved ∧
    (checkout_branch_state true [("x.txt", "base")] [("x.txt", "remote")]
        [("x.txt", "local")]).content "x.txt" = some "remote" :=
  ⟨by decide,
   (C1_conflict_fallback [("x.txt", "base")] [("x.txt", "remote")]
      [("x.txt", "local")] (by decide)).1,
   by
    have h := (C1_conflict_fallback [("x.txt", "base")] [("x.txt", "remote")]
      [("x.txt", "local")] (by decide)).2 "x.txt" (by decide)
    rw [h.1]
    rfl⟩

/-- An action is in `optAction o mk` exactly when `o` carries a value and
the action is its image under `mk`. -/
theorem mem_optAction {a : Action} {o : Option String} {mk : String → Action} :
    a ∈ optAction o mk ↔ ∃ s, o = some s ∧ a = mk s := by
  cases o <;> simp [optAction]

/-- The actions `checkout_branch` can perform. -/
theorem mem_checkout_branch {a : Action} {re : Bool} {b : String} {pf : Bool}
    (h : a ∈ checkout_branch re b pf) :
    a = Action.stash ∨ a = Action.checkout b ∨ a = Action.stashPop ∨
      a = Action.checkoutTheirs ∨ a = Action.resetIndex ∨
      a = Action.checkoutNew b := by
  cases re <;> cases pf <;> simp [checkout_branch] at h <;> tauto

/-- `process_event` performs no `git config` call. -/
theorem gitConfig_notin_process_event (env : Env) (b base : String) (re : Bool)
    (k v : String) : Action.gitConfig k v ∉ (process_event env b base re).2 := by
  cases re <;> simp [process_event, mem_optAction]

/-- C2: under the `short-commit-hash` suffix strategy, when the resolved
branch name already exists on the remote the run exits immediately with the
branch-exists skip outcome and an empty action trace — no checkout, commit,
push, or pull-request creation happens; in particular `createPullRequest`
is never called. -/
theorem C2_short_commit_hash_idempotency :
    ∀ (env : Env) (event_data : EventData) (repo : RepoState),
      (pyTruthy env.SKIP_IGNORE ||
        !(ignore_event env.GITHUB_EVENT_NAME event_data)) = true →
      py_startswith (target_base env) (base_branch env) = false →
      branch_suffix env = "short-commit-hash" →
      remote_branch_exists repo.remoteRefNames (resolved_branch env repo) = true →
      run env event_data repo = (Outcome.skippedBranchExists, []) ∧
      ∀ t b bs hd, Action.createPullRequest t b bs hd ∉
        (run env event_data repo).2 := by
  intro env ed repo h1 h2 h3 h4
  have hrun : run env ed repo = (Outcome.skippedBranchExists, []) := by
    simp [run, h1, h2, h3, h4]
  exact ⟨hrun, fun t b bs hd => by simp [hrun]⟩

/-- C2 witness: a run on HEAD hash `abc1234` whose resolved branch
`create-pull-request/patch-abc1234` is already on the remote exits with the
branch-exists skip and an empty trace. -/
theorem C2_short_commit_hash_idempotency_witness :
    (pyTruthy (Env.mk "push" none none "refs/heads/master" none "a" "t" "o/r"
        none none none none none none none none).SKIP_IGNORE ||
      !(ignore_event "push" ⟨false, "refs/heads/master", "e", "n"⟩)) = true ∧
    run (Env.mk "push" none none "refs/heads/master" none "a" "t" "o/r"
        none none none none none none none none)
      ⟨false, "refs/heads/master", "e", "n"⟩
      (RepoState.mk "abc1234" ["origin/create-pull-request/patch-abc1234"]
        true [] 0 (fun _ => 0) false) =
      (Outcome.skippedBranchExists, []) :=
  ⟨by decide,
   (C2_short_commit_hash_idempotency
      (Env.mk "push" none none "refs/heads/master" none "a" "t" "o/r"
        none none none none none none none none)
      ⟨false, "refs/heads/master", "e", "n"⟩
      (RepoState.mk "abc1234" ["origin/create-pull-request/patch-abc1234"]
        true [] 0 (fun _ => 0) false)
      (by decide) (by decide) rfl (by decide)).1⟩

/-- C4: when the configured base branch name is a prefix of the currently
checked-out branch name, the run aborts at the self-reference guard with a
successful skip outcome and an empty action trace — before branch-name
resolution, remote lookup, checkout, push, or pull-request creation. -/
theorem C4_self_reference_guard :
    ∀ (env : Env) (event_data : EventData) (repo : RepoState),
      (pyTruthy env.SKIP_IGNORE ||
        !(ignore_event env.GITHUB_EVENT_NAME event_data)) = true →
      py_startswith (target_base env) (base_branch env) = true →
      run env event_data repo = (Outcome.skippedSelfRef, []) := by
  intro env ed repo h1 h2
  simp [run, h1, h2]

/-- C4 witness: with current branch `create-pull-request/patch-abc1234` and
configured base name `create-pull-request/patch`, the run aborts with the
self-reference skip and an empty trace. -/
theorem C4_self_reference_guard_witness :
    py_startswith
      (target_base (Env.mk "push" none none
        "refs/heads/create-pull-request/patch-abc1234" none "a" "t" "o/r"
        none none none none none none none none))
      (base_branch (Env.mk "push" none none
        "refs/heads/create-pull-request/patch-abc1234" none "a" "t" "o/r"
        none none none none none none none none)) = true ∧
    run (Env.mk "push" none none "refs/heads/create-pull-request/patch-abc1234"
        none "a" "t" "o/r" none none none none none none none none)
      ⟨false, "refs/heads/master", "e", "n"⟩
      (RepoState.mk "abc1234" [] true [] 0 (fun _ => 0) false) =
      (Outcome.skippedSelfRef, []) :=
  ⟨by decide,
   C4_self_reference_guard
     (Env.mk "push" none none "refs/heads/create-pull-request/patch-abc1234"
       none "a" "t" "o/r" none none none none none none none none)
     ⟨false, "refs/heads/master", "e", "n"⟩
     (RepoState.mk "abc1234" [] true [] 0 (fun _ => 0) false)
     (by decide) (by decide)⟩

/-- `checkout_branch` never commits. -/
theorem commit_notin_checkout_branch (re : Bool) (b : String) (pf : Bool)
    (m : String) : Action.commit m ∉ checkout_branch re b pf := by
  cases re <;> cases pf <;> simp [checkout_branch]

/-- `checkout_branch` never pushes. -/
theorem forcePush_notin_checkout_branch (re : Bool) (b : String) (pf : Bool)
    (b' : String) : Action.forcePush b' ∉ checkout_branch re b pf := by
  cases re <;> cases pf <;> simp [checkout_branch]

/-- `checkout_branch` never creates a pull request. -/
theorem createPR_notin_checkout_branch (re : Bool) (b : String) (pf : Bool)
    (t bo bs hd : String) :
    Action.createPullRequest t bo bs hd ∉ checkout_branch re b pf := by
  cases re <;> cases pf <;> simp [checkout_branch]

/-- `checkout_branch` performs no `git config` call. -/
theorem gitConfig_notin_checkout_branch (re : Bool) (b : String) (pf : Bool)
    (k v : String) : Action.gitConfig k v ∉ checkout_branch re b pf := by
  cases re <;> cases pf <;> simp [checkout_branch]

/-- The five ways a run can go: the three early exits with empty traces,
the clean-tree skip after configuration and checkout, and the full
publishing path through `process_event`. -/
theorem run_cases (env : Env) (ed : EventData) (repo : RepoState) :
    (run env ed repo = (Outcome.ignored, []) ∧
      (pyTruthy env.SKIP_IGNORE ||
        !(ignore_event env.GITHUB_EVENT_NAME ed)) = false) ∨
    run env ed repo = (Outcome.skippedSelfRef, []) ∨
    run env ed repo = (Outcome.skippedBranchExists, []) ∨
    (run env ed repo = (Outcome.skippedClean,
        set_git_config "openosrs.github@gmail.com" "OpenOSRS" ++
          checkout_branch
            (remote_branch_exists repo.remoteRefNames (resolved_branch env repo))
            (resolved_branch env repo) repo.popFails) ∧
      (repo.is_dirty || decide (repo.untracked_files.length > 0)) = false) ∨
    (run env ed repo =
        ((process_event env (resolved_branch env repo) (target_base env)
            (remote_branch_exists repo.remoteRefNames (resolved_branch env repo))).1,
          set_git_config "openosrs.github@gmail.com" "OpenOSRS" ++
            checkout_branch
              (remote_branch_exists repo.remoteRefNames (resolved_branch env repo))
              (resolved_branch env repo) repo.popFails ++
            (process_event env (resolved_branch env repo) (target_base env)
              (remote_branch_exists repo.remoteRefNames (resolved_branch env repo))).2) ∧
      (repo.is_dirty || decide (repo.untracked_files.length > 0)) = true) := by
  cases hc1 : (pyTruthy env.SKIP_IGNORE ||
      !(ignore_event env.GITHUB_EVENT_NAME ed))
  · exact Or.inl ⟨by simp [run, hc1], rfl⟩
  · cases hc2 : py_startswith (target_base env) (base_branch env)
    · cases hc3 : ((branch_suffix env == "short-commit-hash") &&
          remote_branch_exists repo.remoteRefNames (resolved_branch env repo))
      · cases hc4 : (repo.is_dirty || decide (repo.untracked_files.length > 0))
        · exact Or.inr (Or.inr (Or.inr (Or.inl
            ⟨by simp [run, hc1, hc2, hc3, hc4], rfl⟩)))
        · exact Or.inr (Or.inr (Or.inr (Or.inr
            ⟨by simp [run, hc1, hc2, hc3, hc4], rfl⟩)))
      · exact Or.inr (Or.inr (Or.inl (by simp [run, hc1, hc2, hc3])))
    · exact Or.inr (Or.inl (by simp [run, hc1, hc2]))

/-- A clean run (no modified and no untracked files) never commits. -/
theorem commit_notin_run_clean (env : Env) (ed : EventData) (repo : RepoState)
    (m : String) (h4 : repo.is_dirty = false) (h5 : repo.untracked_files = []) :
    Action.commit m ∉ (run env ed repo).2 := by
  have hgate : (repo.is_dirty || decide (repo.untracked_files.length > 0)) = false := by
    simp [h4, h5]
  rcases run_cases env ed repo with ⟨h, -⟩ | h | h | ⟨h, -⟩ | ⟨-, h⟩
  · simp [h]
  · simp [h]
  · simp [h]
  · rw [h]
    simp only [List.mem_append, Prod.snd]
    rintro (hm | hm)
    · simp [set_git_config] at hm
    · exact commit_notin_checkout_branch _ _ _ _ hm
  · rw [hgate] at h
    exact absurd h (by decide)

/-- C7: a run reaching the publishing gate with a clean working tree and no
untracked files exits with the clean-tree skip outcome and never commits,
pushes, or creates a pull request; conversely a commit happens only when the
workspace was dirty or had untracked files. -/
theorem C7_noop_on_clean_tree :
    (∀ (env : Env) (event_data : EventData) (repo : RepoState),
      (pyTruthy env.SKIP_IGNORE ||
        !(ignore_event env.GITHUB_EVENT_NAME event_data)) = true →
      py_startswith (target_base env) (base_branch env) = false →
      ((branch_suffix env == "short-commit-hash") &&
        remote_branch_exists repo.remoteRefNames (resolved_branch env repo)) = false →
      repo.is_dirty = false →
      repo.untracked_files = [] →
      (run env event_data repo).1 = Outcome.skippedClean ∧
      (∀ m, Action.commit m ∉ (run env event_data repo).2) ∧
      (∀ b, Action.forcePush b ∉ (run env event_data repo).2) ∧
      (∀ t b bs hd, Action.createPullRequest t b bs hd ∉
        (run env event_data repo).2)) ∧
    (∀ (env : Env) (event_data : EventData) (repo : RepoState) (m : String),
      Action.commit m ∈ (run env event_data repo).2 →
      repo.is_dirty = true ∨ repo.untracked_files ≠ []) := by
  constructor
  · intro env ed repo h1 h2 h3 h4 h5
    have hgate : (repo.is_dirty || decide (repo.untracked_files.length > 0)) = false := by
      simp [h4, h5]
    have hrun : run env ed repo = (Outcome.skippedClean,
        set_git_config "openosrs.github@gmail.com" "OpenOSRS" ++
          checkout_branch
            (remote_branch_exists repo.remoteRefNames (resolved_branch env repo))
            (resolved_branch env repo) repo.popFails) := by
      simp [run, h1, h2, h3, hgate]
    refine ⟨by simp [hrun], ?_, ?_, ?_⟩
    · intro m
      rw [hrun]
      simp only [List.mem_append, Prod.snd]
      rintro (hm | hm)
      · simp [set_git_config] at hm
      · exact commit_notin_checkout_branch _ _ _ _ hm
    · intro b
      rw [hrun]
      simp only [List.mem_append, Prod.snd]
      rintro (hm | hm)
      · simp [set_git_config] at hm
      · exact forcePush_notin_checkout_branch _ _ _ _ hm
    · intro t b bs hd
      rw [hrun]
      simp only [List.mem_append, Prod.snd]
      rintro (hm | hm)
      · simp [set_git_config] at hm
      · exact createPR_notin_checkout_branch _ _ _ _ _ _ _ hm
  · intro env ed repo m hm
    by_cases hd : repo.is_dirty = true
    · exact Or.inl hd
    · refine Or.inr (fun hu => ?_)
      have h4 : repo.is_dirty = false := by
        cases hrepo : repo.is_dirty
        · rfl
        · exact absurd hrepo hd
      exact commit_notin_run_clean env ed repo m h4 hu hm

/-- C7 witness: a clean repository run exits with the clean-tree skip. -/
theorem C7_noop_on_clean_tree_witness :
    (RepoState.mk "abc1234" [] false [] 0 (fun _ => 0) false).is_dirty = false ∧
    (RepoState.mk "abc1234" [] false [] 0 (fun _ => 0) false).untracked_files = [] ∧
    (run (Env.mk "push" none none "refs/heads/master" none "a" "t" "o/r"
        none none none none none none none none)
      ⟨false, "refs/heads/master", "e", "n"⟩
      (RepoState.mk "abc1234" [] false [] 0 (fun _ => 0) false)).1 =
      Outcome.skippedClean :=
  ⟨rfl, rfl,
   (C7_noop_on_clean_tree.1
     (Env.mk "push" none none "refs/heads/master" none "a" "t" "o/r"
       none none none none none none none none)
     ⟨false, "refs/heads/master", "e", "n"⟩
     (RepoState.mk "abc1234" [] false [] 0 (fun _ => 0) false)
     (by decide) (by decide) (by decide) rfl rfl).1⟩

/-- Recognizes the pull-request-creation action. -/
def isCreatePullRequest : Action → Bool
  | Action.createPullRequest _ _ _ _ => true
  | _ => false

/-- Optional metadata steps never create a pull request. -/
theorem countP_isCreate_optAction (o : Option String) (mk : String → Action)
    (h : ∀ s, isCreatePullRequest (mk s) = false) :
    (optAction o mk).countP isCreatePullRequest = 0 := by
  cases o <;> simp [optAction, List.countP_cons, h]

/-- `checkout_branch` contains no pull-request creation. -/
theorem countP_isCreate_checkout_branch (re : Bool) (b : String) (pf : Bool) :
    (checkout_branch re b pf).countP isCreatePullRequest = 0 := by
  cases re <;> cases pf <;>
    simp [checkout_branch, List.countP_cons, isCreatePullRequest]

/-- C8: once the publishing path runs, a branch that pre-existed on the
remote leads to the branch-update outcome with no pull-request creation;
a fresh branch leads to exactly one pull-request creation whose head is the
resolved branch name and whose base is the target branch, followed by the
optional metadata steps in source order (labels, assignees, milestone,
reviewers, team reviewers), each present exactly when its configuration
value is set. -/
theorem C8_pull_request_orchestrator :
    (∀ (env : Env) (event_data : EventData) (repo : RepoState),
      (pyTruthy env.SKIP_IGNORE ||
        !(ignore_event env.GITHUB_EVENT_NAME event_data)) = true →
      py_startswith (target_base env) (base_branch env) = false →
      ((branch_suffix env == "short-commit-hash") &&
        remote_branch_exists repo.remoteRefNames (resolved_branch env repo)) = false →
      (repo.is_dirty || decide (repo.untracked_files.length > 0)) = true →
      remote_branch_exists repo.remoteRefNames (resolved_branch env repo) = true →
      (run env event_data repo).1 = Outcome.updatedExistingBranch ∧
      ∀ t b bs hd, Action.createPullRequest t b bs hd ∉
        (run env event_data repo).2) ∧
    (∀ (env : Env) (event_data : EventData) (repo : RepoState),
      (pyTruthy env.SKIP_IGNORE ||
        !(ignore_event env.GITHUB_EVENT_NAME event_data)) = true →
      py_startswith (target_base env) (base_branch env) = false →
      (repo.is_dirty || decide (repo.untracked_files.length > 0)) = true →
      remote_branch_exists repo.remoteRefNames (resolved_branch env repo) = false →
      run env event_data repo = (Outcome.createdPullRequest,
        set_git_config "openosrs.github@gmail.com" "OpenOSRS" ++
        [Action.checkoutNew (resolved_branch env repo)] ++
        [Action.setRemoteUrl env.GITHUB_TOKEN env.GITHUB_REPOSITORY,
         Action.addAll,
         Action.commit (env.COMMIT_MESSAGE.getD default_commit_message),
         Action.forcePush (resolved_branch env repo),
         Action.createPullRequest (env.PULL_REQUEST_TITLE.getD default_title)
           (env.PULL_REQUEST_BODY.getD default_body) (target_base env)
           (resolved_branch env repo),
         Action.setEnvPullRequestNumber] ++
        optAction env.PULL_REQUEST_LABELS
          (fun s => Action.setLabels (cs_string_to_list s)) ++
        optAction env.PULL_REQUEST_ASSIGNEES
          (fun s => Action.setAssignees (cs_string_to_list s)) ++
        optAction env.PULL_REQUEST_MILESTONE
          (fun s => Action.setMilestone s) ++
        optAction env.PULL_REQUEST_REVIEWERS
          (fun s => Action.requestReviewers (cs_string_to_list s)) ++
        optAction env.PULL_REQUEST_TEAM_REVIEWERS
          (fun s => Action.requestTeamReviewers (cs_string_to_list s))) ∧
      ((run env event_data repo).2.countP isCreatePullRequest) = 1) := by
  constructor
  · intro env ed repo h1 h2 h3 hgate hex
    have hsfx : (branch_suffix env == "short-commit-hash") = false := by
      rw [hex, Bool.and_true] at h3
      exact h3
    have hrun : run env ed repo = (Outcome.updatedExistingBranch,
        set_git_config "openosrs.github@gmail.com" "OpenOSRS" ++
          checkout_branch true (resolved_branch env repo) repo.popFails ++
          [Action.setRemoteUrl env.GITHUB_TOKEN env.GITHUB_REPOSITORY,
           Action.addAll,
           Action.commit (env.COMMIT_MESSAGE.getD default_commit_message),
           Action.forcePush (resolved_branch env repo)]) := by
      simp [run, h1, h2, hsfx, hgate, hex, process_event]
    refine ⟨by simp [hrun], ?_⟩
    intro t b bs hd
    rw [hrun]
    simp only [List.mem_append, Prod.snd]
    rintro ((hm | hm) | hm)
    · simp [set_git_config] at hm
    · exact createPR_notin_checkout_branch _ _ _ _ _ _ _ hm
    · simp at hm
  · intro env ed repo h1 h2 hgate hex
    have h3 : ((branch_suffix env == "short-commit-hash") &&
        remote_branch_exists repo.remoteRefNames (resolved_branch env repo)) = false := by
      rw [hex, Bool.and_false]
    have hrun : run env ed repo = (Outcome.createdPullRequest,
        set_git_config "openosrs.github@gmail.com" "OpenOSRS" ++
        [Action.checkoutNew (resolved_branch env repo)] ++
        [Action.setRemoteUrl env.GITHUB_TOKEN env.GITHUB_REPOSITORY,
         Action.addAll,
         Action.commit (env.COMMIT_MESSAGE.getD default_commit_message),
         Action.forcePush (resolved_branch env repo),
         Action.createPullRequest (env.PULL_REQUEST_TITLE.getD default_title)
           (env.PULL_REQUEST_BODY.getD default_body) (target_base env)
           (resolved_branch env repo),
         Action.setEnvPullRequestNumber] ++
        optAction env.PULL_REQUEST_LABELS
          (fun s => Action.setLabels (cs_string_to_list s)) ++
        optAction env.PULL_REQUEST_ASSIGNEES
          (fun s => Action.setAssignees (cs_string_to_list s)) ++
        optAction env.PULL_REQUEST_MILESTONE
          (fun s => Action.setMilestone s) ++
        optAction env.PULL_REQUEST_REVIEWERS
          (fun s => Action.requestReviewers (cs_string_to_list s)) ++
        optAction env.PULL_REQUEST_TEAM_REVIEWERS
          (fun s => Action.requestTeamReviewers (cs_string_to_list s))) := by
      simp [run, h1, h2, h3, hgate, hex, process_event, checkout_branch,
        set_git_config]
    refine ⟨hrun, ?_⟩
    have hl : ∀ s, isCreatePullRequest (Action.setLabels (cs_string_to_list s)) = false :=
      fun _ => rfl
    have ha : ∀ s, isCreatePullRequest (Action.setAssignees (cs_string_to_list s)) = false :=
      fun _ => rfl
    have hmi : ∀ s, isCreatePullRequest (Action.setMilestone s) = false :=
      fun _ => rfl
    have hr : ∀ s, isCreatePullRequest (Action.requestReviewers (cs_string_to_list s)) = false :=
      fun _ => rfl
    have ht : ∀ s, isCreatePullRequest (Action.requestTeamReviewers (cs_string_to_list s)) = false :=
      fun _ => rfl
    rw [hrun]
    simp only [Prod.snd, List.countP_append,
      countP_isCreate_optAction _ _ hl, countP_isCreate_optAction _ _ ha,
      countP_isCreate_optAction _ _ hmi, countP_isCreate_optAction _ _ hr,
      countP_isCreate_optAction _ _ ht]
    simp [set_git_config, List.countP_cons, isCreatePullRequest]

/-- C8 witness: a dirty run on a fresh branch creates exactly one pull
request with the resolved head and the target base, with no metadata
configured. -/
theorem C8_pull_request_orchestrator_witness :
    remote_branch_exists
      (RepoState.mk "abc1234" [] true [] 0 (fun _ => 0) false).remoteRefNames
      (resolved_branch
        (Env.mk "push" none none "refs/heads/master" none "a" "t" "o/r"
          none none none none none none none none)
        (RepoState.mk "abc1234" [] true [] 0 (fun _ => 0) false)) = false ∧
    run (Env.mk "push" none none "refs/heads/master" none "a" "t" "o/r"
        none none none none none none none none)
      ⟨false, "refs/heads/master", "e", "n"⟩
      (RepoState.mk "abc1234" [] true [] 0 (fun _ => 0) false) =
      (Outcome.createdPullRequest,
        [Action.gitConfig "user.email" "\"openosrs.github@gmail.com\"",
         Action.gitConfig "user.name" "\"OpenOSRS\"",
         Action.checkoutNew "create-pull-request/patch-abc1234",
         Action.setRemoteUrl "t" "o/r",
         Action.addAll,
         Action.commit default_commit_message,
         Action.forcePush "create-pull-request/patch-abc1234",
         Action.createPullRequest default_title default_body "master"
           "create-pull-request/patch-abc1234",
         Action.setEnvPullRequestNumber]) := by
  have h := (C8_pull_request_orchestrator.2
    (Env.mk "push" none none "refs/heads/master" none "a" "t" "o/r"
      none none none none none none none none)
    ⟨false, "refs/heads/master", "e", "n"⟩
    (RepoState.mk "abc1234" [] true [] 0 (fun _ => 0) false)
    (by decide) (by decide) rfl (by decide)).1
  refine ⟨by decide, ?_⟩
  rw [h]
  rfl

/-- C9: the git identity configured by a run is always the constant pair
`openosrs.github@gmail.com` / `OpenOSRS` — every `git config` call in any
run's trace sets one of those two constant values — and the run's whole
behaviour is independent of `GITHUB_ACTOR` and of the event payload's
head-commit author, the only inputs `get_head_author` reads: the function
is defined by the script but never invoked. -/
theorem C9_fixed_git_identity :
    (∀ (env : Env) (event_data : EventData) (repo : RepoState) (k v : String),
      Action.gitConfig k v ∈ (run env event_data repo).2 →
      (k = "user.email" ∧ v = "\"openosrs.github@gmail.com\"") ∨
      (k = "user.name" ∧ v = "\"OpenOSRS\"")) ∧
    (∀ (en : String) (si prb : Option String) (gr : String) (bs : Option String)
      (a₁ a₂ tok grp : String) (cm ti bo la asg mi rv tr : Option String)
      (d : Bool) (r e₁ n₁ e₂ n₂ : String) (repo : RepoState),
      run (Env.mk en si prb gr bs a₁ tok grp cm ti bo la asg mi rv tr)
          (EventData.mk d r e₁ n₁) repo =
        run (Env.mk en si prb gr bs a₂ tok grp cm ti bo la asg mi rv tr)
          (EventData.mk d r e₂ n₂) repo) := by
  constructor
  · intro env ed repo k v h
    rcases run_cases env ed repo with ⟨hc, -⟩ | hc | hc | ⟨hc, -⟩ | ⟨hc, -⟩
    · rw [hc] at h
      simp at h
    · rw [hc] at h
      simp at h
    · rw [hc] at h
      simp at h
    · rw [hc] at h
      rcases List.mem_append.mp h with hm | hm
      · simp [set_git_config] at hm
        tauto
      · exact absurd hm (gitConfig_notin_checkout_branch _ _ _ _ _)
    · rw [hc] at h
      rcases List.mem_append.mp h with hm | hm
      · rcases List.mem_append.mp hm with hm' | hm'
        · simp [set_git_config] at hm'
          tauto
        · exact absurd hm' (gitConfig_notin_checkout_branch _ _ _ _ _)
      · exact absurd hm (gitConfig_notin_process_event _ _ _ _ _ _)
  · intro en si prb gr bs a₁ a₂ tok grp cm ti bo la asg mi rv tr d r e₁ n₁ e₂ n₂ repo
    rfl

/-- C9 witness: a concrete publishing run whose trace contains the constant
`user.email` configuration call, recognized as one of the two constant
identity settings. -/
theorem C9_fixed_git_identity_witness :
    Action.gitConfig "user.email" "\"openosrs.github@gmail.com\"" ∈
      (run (Env.mk "push" none none "refs/heads/master" none "a" "t" "o/r"
          none none none none none none none none)
        ⟨false, "refs/heads/master", "e", "n"⟩
        (RepoState.mk "abc1234" [] true [] 0 (fun _ => 0) false)).2 ∧
    (("user.email" = "user.email" ∧
        "\"openosrs.github@gmail.com\"" = "\"openosrs.github@gmail.com\"") ∨
      ("user.email" = "user.name" ∧
        "\"openosrs.github@gmail.com\"" = "\"OpenOSRS\"")) :=
  ⟨by decide,
   C9_fixed_git_identity.1
     (Env.mk "push" none none "refs/heads/master" none "a" "t" "o/r"
       none none none none none none none none)
     ⟨false, "refs/heads/master", "e", "n"⟩
     (RepoState.mk "abc1234" [] true [] 0 (fun _ => 0) false)
     "user.email" "\"openosrs.github@gmail.com\"" (by decide)⟩

/-- C10: the classifier bypass follows Python string truthiness — any
non-empty `SKIP_IGNORE` value (including `"false"` and `"0"`) bypasses the
event classifier so the run is never ignored, while an unset variable or
the empty string leaves the classifier active, and an ignorable event is
then ignored with an empty trace. -/
theorem C10_skip_ignore_truthiness :
    (∀ (env : Env) (event_data : EventData) (repo : RepoState) (s : String),
      env.SKIP_IGNORE = some s → s ≠ "" →
      (run env event_data repo).1 ≠ Outcome.ignored) ∧
    (∀ (env : Env) (event_data : EventData) (repo : RepoState),
      (env.SKIP_IGNORE = none ∨ env.SKIP_IGNORE = some "") →
      ignore_event env.GITHUB_EVENT_NAME event_data = true →
      run env event_data repo = (Outcome.ignored, [])) := by
  constructor
  · intro env ed repo s hs hne
    have h1 : (pyTruthy env.SKIP_IGNORE ||
        !(ignore_event env.GITHUB_EVENT_NAME ed)) = true := by
      rw [hs]
      simp [pyTruthy, hne]
    rcases run_cases env ed repo with ⟨-, hc⟩ | hc | hc | ⟨hc, -⟩ | ⟨hc, -⟩
    · rw [h1] at hc
      exact absurd hc (by decide)
    · simp [hc]
    · simp [hc]
    · simp [hc]
    · rw [hc]
      cases hre : remote_branch_exists repo.remoteRefNames (resolved_branch env repo) <;>
        simp [process_event]
  · intro env ed repo hz hig
    have h1 : (pyTruthy env.SKIP_IGNORE ||
        !(ignore_event env.GITHUB_EVENT_NAME ed)) = false := by
      rcases hz with hz | hz <;> rw [hz] <;> simp [pyTruthy, hig]
    simp [run, h1]

/-- C10 witness: a deleted-branch push event is ignored when `SKIP_IGNORE`
is unset, but processing proceeds when `SKIP_IGNORE` is the string
`"false"`. -/
theorem C10_skip_ignore_truthiness_witness :
    ignore_event "push" ⟨true, "refs/heads/master", "e", "n"⟩ = true ∧
    (run (Env.mk "push" (some "false") none "refs/heads/master" none "a" "t"
        "o/r" none none none none none none none none)
      ⟨true, "refs/heads/master", "e", "n"⟩
      (RepoState.mk "abc1234" [] true [] 0 (fun _ => 0) false)).1 ≠
      Outcome.ignored ∧
    run (Env.mk "push" none none "refs/heads/master" none "a" "t" "o/r"
        none none none none none none none none)
      ⟨true, "refs/heads/master", "e", "n"⟩
      (RepoState.mk "abc1234" [] true [] 0 (fun _ => 0) false) =
      (Outcome.ignored, []) :=
  ⟨by decide,
   C10_skip_ignore_truthiness.1
     (Env.mk "push" (some "false") none "refs/heads/master" none "a" "t"
       "o/r" none none none none none none none none)
     ⟨true, "refs/heads/master", "e", "n"⟩
     (RepoState.mk "abc1234" [] true [] 0 (fun _ => 0) false)
     "false" rfl (by decide),
   C10_skip_ignore_truthiness.2
     (Env.mk "push" none none "refs/heads/master" none "a" "t" "o/r"
       none none none none none none none none)
     ⟨true, "refs/heads/master", "e", "n"⟩
     (RepoState.mk "abc1234" [] true [] 0 (fun _ => 0) false)
     (Or.inl rfl) (by decide)⟩

end CreatePullRequest
